import Mathlib

/-!
# Verification of the Radio_station backend (src/backend/server.py)

A shallow embedding of the FastAPI backend in `src/backend/server.py`.

Modelling conventions:
* The upstream HTTP transport (aiohttp `session.get`) is a parameter
  `transport : Request → TransportOutcome β`: given the outbound request it
  either yields an HTTP response (status plus decoded JSON body of type `β`),
  raises `asyncio.TimeoutError`, or raises some other client exception with a
  message.  The JSON body is typed per endpoint (a list of station/country/
  genre objects), matching how each handler consumes it; a JSON object field
  that may be absent is an `Option`, with `none` meaning "key not present".
* Python exception flow is explicit: `Except` values and a `PyException`
  type for the exceptions that can escape the `try` block of
  `make_radio_browser_request`.  Crucially, FastAPI's `HTTPException` is a
  subclass of `Exception`, so the `raise HTTPException(...)` for a non-200
  upstream status (server.py line 104) happens inside the `try` block and is
  caught by the `except Exception` handler on line 107.
* `random.choice(RADIO_BROWSER_SERVERS)` is modelled by an explicit
  `choice : Nat` argument, reduced modulo the length of the server list.
* Each forwarder/endpoint returns, besides its result, the list of outbound
  requests it performed, so that "no upstream call is made" and "exactly one
  outbound GET, no retry" are statable.
* FastAPI validates `Query(..., ge=..., le=...)` constraints before the
  handler body runs; a violation produces a 422 validation error response and
  the handler is never entered.  This is the `validationError` result.
-/

/-- Value of a query parameter as put into the `params` dict by the handlers
(`limit`/`offset` are ints, the rest are strings). -/
inductive ParamValue where
  | int (n : Int)
  | str (s : String)
deriving DecidableEq, Repr

/-- The `params` dict passed to `session.get`, as an ordered association list
(insertion order of the Python dict literal and subsequent assignments). -/
abbrev Params := List (String × ParamValue)

/-- An outbound GET request as issued by `session.get(url, params=params,
headers=headers, ...)`.  `params = none` models Python's `params=None`. -/
structure Request where
  url : String
  params : Option Params
  headers : List (String × String)
deriving DecidableEq, Repr

/-- What a single upstream GET can do: deliver a response with an HTTP status
and a decoded JSON body, raise `asyncio.TimeoutError`, or raise any other
exception (connection errors, JSON decoding errors, ...) with message `msg`. -/
inductive TransportOutcome (β : Type) where
  | response (status : Nat) (body : β)
  | timeout
  | failure (msg : String)

/-- `fastapi.HTTPException` content: `status_code` and `detail`. -/
structure HTTPError where
  status_code : Nat
  detail : String
deriving DecidableEq, Repr

/-- The exceptions that can propagate out of the `try` body of
`make_radio_browser_request`: the `HTTPException` raised on a non-200 status,
`asyncio.TimeoutError`, and any other exception. -/
inductive PyException where
  | httpException (status_code : Nat) (detail : String)
  | timeoutError
  | otherException (msg : String)
deriving DecidableEq, Repr

/-- Python `str(e)` for the exceptions above.  Starlette's `HTTPException`
defines `__str__` as `f"{self.status_code}: {self.detail}"`;
`str(asyncio.TimeoutError())` is the empty string. -/
def PyException.str : PyException → String
  | .httpException s d => toString s ++ ": " ++ d
  | .timeoutError => ""
  | .otherException msg => msg

-- Radio Browser API servers (server.py lines 31-35)
def RADIO_BROWSER_SERVERS : List String :=
  ["de1.api.radio-browser.info",
   "nl1.api.radio-browser.info",
   "at1.api.radio-browser.info"]

/-- `get_random_server` (server.py lines 86-87).  `random.choice` picks an
index uniformly in `[0, len)`; the index is the explicit `choice` argument,
reduced modulo the list length. -/
def get_random_server (choice : Nat) : String :=
  "https://" ++ RADIO_BROWSER_SERVERS.getD (choice % RADIO_BROWSER_SERVERS.length) ""

/-- The `try` block of `make_radio_browser_request` (server.py lines 98-104):
on status 200 return the decoded body; on any other status raise
`HTTPException(status_code=response.status, detail=f"Radio API error: {response.status}")`;
a timeout or other transport exception propagates as itself. -/
def forwarder_try_block {β : Type} (outcome : TransportOutcome β) :
    Except PyException β :=
  match outcome with
  | .response status body =>
      if status = 200 then .ok body
      else .error (.httpException status ("Radio API error: " ++ toString status))
  | .timeout => .error .timeoutError
  | .failure msg => .error (.otherException msg)

/-- The `except` clauses of `make_radio_browser_request` (server.py lines
105-108).  `except asyncio.TimeoutError` is tried first and maps to 408;
`except Exception as e` catches every other exception — including the
`HTTPException` raised inside the `try` block for a non-200 status, since
`HTTPException` subclasses `Exception` — and maps it to
`HTTPException(500, f"Radio API error: {str(e)}")`. -/
def forwarder_except_handlers (e : PyException) : HTTPError :=
  match e with
  | .timeoutError => { status_code := 408, detail := "Radio API timeout" }
  | e => { status_code := 500, detail := "Radio API error: " ++ e.str }

/-- `make_radio_browser_request` (server.py lines 90-108).  Builds the URL
from the randomly chosen mirror and the endpoint path, attaches the fixed
`User-Agent` header, performs exactly one GET (the returned trace), and
normalizes the outcome through the `try`/`except` structure above. -/
def make_radio_browser_request {β : Type} (choice : Nat) (endpoint : String)
    (params : Option Params) (transport : Request → TransportOutcome β) :
    Except HTTPError β × List Request :=
  let server_url := get_random_server choice
  let url := server_url ++ endpoint
  let headers := [("User-Agent", "GlobalRadioApp/1.0")]
  let req : Request := { url := url, params := params, headers := headers }
  let result : Except HTTPError β :=
    match forwarder_try_block (transport req) with
    | .ok body => .ok body
    | .error e => .error (forwarder_except_handlers e)
  (result, [req])

/-- The result of an endpoint as seen by the HTTP client: the handler's value
(status 200), an `HTTPException` raised by the handler, or a request-
validation failure (FastAPI rejects the request with a 422 response and the
handler body never runs). -/
inductive EndpointResult (α : Type) where
  | ok (value : α)
  | httpError (e : HTTPError)
  | validationError
deriving DecidableEq, Repr

/-- The HTTP status code of an endpoint outcome. -/
def EndpointResult.status_code {α : Type} : EndpointResult α → Nat
  | .ok _ => 200
  | .httpError e => e.status_code
  | .validationError => 422

/-- Length of the returned list for an endpoint returning a list, 0 when no
list was returned. -/
def result_length {α : Type} : EndpointResult (List α) → Nat
  | .ok l => l.length
  | .httpError _ => 0
  | .validationError => 0

/-- A Python list comprehension `[f(x) for x in xs]` whose body may raise
(pydantic validation error / `KeyError`): the first failure aborts the whole
comprehension, and the escaping exception makes FastAPI answer 500. -/
def list_comp {α β : Type} (f : α → Option β) : List α → Option (List β)
  | [] => some []
  | x :: xs =>
      match f x, list_comp f xs with
      | some y, some ys => some (y :: ys)
      | _, _ => none

/-- A station object of the upstream JSON response, restricted to the field
names the `RadioStation` pydantic model reads (unknown upstream fields are
dropped by pydantic and hence not modelled); `none` means the key is absent
from the object. -/
structure StationJson where
  stationuuid : Option String := none
  name : Option String := none
  url : Option String := none
  url_resolved : Option String := none
  homepage : Option String := none
  favicon : Option String := none
  tags : Option String := none
  country : Option String := none
  countrycode : Option String := none
  state : Option String := none
  language : Option String := none
  languagecodes : Option String := none
  votes : Option Int := none
  lastchangetime : Option String := none
  codec : Option String := none
  bitrate : Option Int := none
  hls : Option Int := none
  lastcheckok : Option Int := none
  lastchecktime : Option String := none
  lastcheckoktime : Option String := none
  lastlocalchecktime : Option String := none
  clicktimestamp : Option String := none
  clickcount : Option Int := none
  clicktrend : Option Int := none
  ssl_error : Option Int := none
  geo_lat : Option Float := none
  geo_long : Option Float := none
  has_extended_info : Option Bool := none

/-- The `RadioStation` pydantic model (server.py lines 38-66):
`stationuuid`, `name`, `url` are required; every other field is optional with
the default shown in the source (`None`, `0`, `1` for `lastcheckok`, `False`
for `has_extended_info`). -/
structure RadioStation where
  stationuuid : String
  name : String
  url : String
  url_resolved : Option String
  homepage : Option String
  favicon : Option String
  tags : Option String
  country : Option String
  countrycode : Option String
  state : Option String
  language : Option String
  languagecodes : Option String
  votes : Int
  lastchangetime : Option String
  codec : Option String
  bitrate : Int
  hls : Int
  lastcheckok : Int
  lastchecktime : Option String
  lastcheckoktime : Option String
  lastlocalchecktime : Option String
  clicktimestamp : Option String
  clickcount : Int
  clicktrend : Int
  ssl_error : Int
  geo_lat : Option Float
  geo_long : Option Float
  has_extended_info : Bool

/-- `RadioStation(**station)`: pydantic validation.  Fails (raising
`ValidationError`) when a required field is missing; an absent optional field
takes its declared default. -/
def RadioStation.ofJson (s : StationJson) : Option RadioStation :=
  match s.stationuuid, s.name, s.url with
  | some stationuuid, some name, some url =>
      some { stationuuid := stationuuid
             name := name
             url := url
             url_resolved := s.url_resolved
             homepage := s.homepage
             favicon := s.favicon
             tags := s.tags
             country := s.country
             countrycode := s.countrycode
             state := s.state
             language := s.language
             languagecodes := s.languagecodes
             votes := s.votes.getD 0
             lastchangetime := s.lastchangetime
             codec := s.codec
             bitrate := s.bitrate.getD 0
             hls := s.hls.getD 0
             lastcheckok := s.lastcheckok.getD 1
             lastchecktime := s.lastchecktime
             lastcheckoktime := s.lastcheckoktime
             lastlocalchecktime := s.lastlocalchecktime
             clicktimestamp := s.clicktimestamp
             clickcount := s.clickcount.getD 0
             clicktrend := s.clicktrend.getD 0
             ssl_error := s.ssl_error.getD 0
             geo_lat := s.geo_lat
             geo_long := s.geo_long
             has_extended_info := s.has_extended_info.getD false }
  | _, _, _ => none

/-- A country object of the upstream `/json/countries` response (fields read
by the handler and the `Country` model; `none` means the key is absent). -/
structure CountryJson where
  name : Option String := none
  iso_3166_1 : Option String := none
  stationcount : Option Int := none

/-- The `Country` pydantic model (server.py lines 68-71): all three fields
required. -/
structure Country where
  name : String
  iso_3166_1 : String
  stationcount : Int

/-- `Country(**country)`: pydantic validation, all fields required. -/
def Country.ofJson (c : CountryJson) : Option Country :=
  match c.name, c.iso_3166_1, c.stationcount with
  | some name, some iso, some count =>
      some { name := name, iso_3166_1 := iso, stationcount := count }
  | _, _, _ => none

/-- A genre/tag object of the upstream `/json/tags` response. -/
structure GenreJson where
  name : Option String := none
  stationcount : Option Int := none

/-- The `Genre` pydantic model (server.py lines 73-75). -/
structure Genre where
  name : String
  stationcount : Int

/-- `Genre(name=genre['name'], stationcount=genre['stationcount'])`: dict
indexing raises `KeyError` when either key is absent. -/
def Genre.ofJson (g : GenreJson) : Option Genre :=
  match g.name, g.stationcount with
  | some name, some count => some { name := name, stationcount := count }
  | _, _ => none

/-- Builds the optional-filter part of the search `params` dict (server.py
lines 129-136): `if name: params["name"] = name` — a filter is added only
when the value is present and truthy (a non-empty string). -/
def opt_filter_param (key : String) : Option String → Params
  | some s => if s = "" then [] else [(key, ParamValue.str s)]
  | none => []

/-- The `params` dict built by `search_stations` (server.py lines 121-136),
in Python dict insertion order. -/
def search_request_params (name country tag language : Option String)
    (limit offset : Int) : Params :=
  [("limit", ParamValue.int limit),
   ("offset", ParamValue.int offset),
   ("hidebroken", ParamValue.str "true"),
   ("order", ParamValue.str "clickcount"),
   ("reverse", ParamValue.str "true")]
  ++ opt_filter_param "name" name
  ++ opt_filter_param "country" country
  ++ opt_filter_param "tag" tag
  ++ opt_filter_param "language" language

/-- `GET /api/radio/search` (server.py lines 111-139).  FastAPI first checks
the `Query` constraints `limit: ge=1, le=100` (default 50) and
`offset: ge=0` (default 0); a violation yields a 422 validation error and the
handler never runs (no upstream request).  Otherwise the handler forwards one
request and reshapes each element of the JSON list into a `RadioStation`
(a pydantic failure escaping the handler yields a 500 response). -/
def search_stations (name country tag language : Option String)
    (limit : Int := 50) (offset : Int := 0) (choice : Nat := 0)
    (transport : Request → TransportOutcome (List StationJson) :=
      fun _ => .failure "") :
    EndpointResult (List RadioStation) × List Request :=
  if limit < 1 ∨ 100 < limit ∨ offset < 0 then (.validationError, [])
  else
    let fwd := make_radio_browser_request choice "/json/stations/search"
      (some (search_request_params name country tag language limit offset)) transport
    (match fwd.1 with
     | .error e => .httpError e
     | .ok stations =>
         match list_comp RadioStation.ofJson stations with
         | some l => .ok l
         | none => .httpError { status_code := 500, detail := "Internal Server Error" },
     fwd.2)

/-- The `params` dict built by `get_popular_stations` (server.py lines
144-149). -/
def popular_request_params (limit : Int) : Params :=
  [("limit", ParamValue.int limit),
   ("hidebroken", ParamValue.str "true"),
   ("order", ParamValue.str "clickcount"),
   ("reverse", ParamValue.str "true")]

/-- `GET /api/radio/popular` (server.py lines 141-152): `limit` constrained
to `[1, 100]` (default 50) by FastAPI before the handler runs. -/
def get_popular_stations (limit : Int := 50) (choice : Nat := 0)
    (transport : Request → TransportOutcome (List StationJson) :=
      fun _ => .failure "") :
    EndpointResult (List RadioStation) × List Request :=
  if limit < 1 ∨ 100 < limit then (.validationError, [])
  else
    let fwd := make_radio_browser_request choice "/json/stations/search"
      (some (popular_request_params limit)) transport
    (match fwd.1 with
     | .error e => .httpError e
     | .ok stations =>
         match list_comp RadioStation.ofJson stations with
         | some l => .ok l
         | none => .httpError { status_code := 500, detail := "Internal Server Error" },
     fwd.2)

/-- `GET /api/radio/countries` (server.py lines 154-158): forwards
`/json/countries` with no params and keeps only entries with
`country.get('stationcount', 0) > 0` before reshaping them. -/
def get_countries (choice : Nat := 0)
    (transport : Request → TransportOutcome (List CountryJson) :=
      fun _ => .failure "") :
    EndpointResult (List Country) × List Request :=
  let fwd := make_radio_browser_request choice "/json/countries" none transport
  (match fwd.1 with
   | .error e => .httpError e
   | .ok countries =>
       match list_comp Country.ofJson
           (countries.filter (fun c => 0 < c.stationcount.getD 0)) with
       | some l => .ok l
       | none => .httpError { status_code := 500, detail := "Internal Server Error" },
   fwd.2)

/-- The `params` dict built by `get_genres` (server.py lines 163-167). -/
def genres_request_params (limit : Int) : Params :=
  [("limit", ParamValue.int limit),
   ("order", ParamValue.str "stationcount"),
   ("reverse", ParamValue.str "true")]

/-- `GET /api/radio/genres` (server.py lines 160-170): `limit` constrained to
`[1, 100]` (default 50) by FastAPI before the handler runs. -/
def get_genres (limit : Int := 50) (choice : Nat := 0)
    (transport : Request → TransportOutcome (List GenreJson) :=
      fun _ => .failure "") :
    EndpointResult (List Genre) × List Request :=
  if limit < 1 ∨ 100 < limit then (.validationError, [])
  else
    let fwd := make_radio_browser_request choice "/json/tags"
      (some (genres_request_params limit)) transport
    (match fwd.1 with
     | .error e => .httpError e
     | .ok genres =>
         match list_comp Genre.ofJson genres with
         | some l => .ok l
         | none => .httpError { status_code := 500, detail := "Internal Server Error" },
     fwd.2)

/-- The JSON body returned by `click_station`: a `message`, plus an `error`
field holding `str(e)` in the failure branch. -/
structure ClickResponse where
  message : String
  error : Option String
deriving DecidableEq, Repr

/-- `POST /api/radio/click/{station_uuid}` (server.py lines 172-180): calls
the forwarder inside `try`; on success returns the success message, and
`except Exception as e` turns any forwarder failure (always an
`HTTPException`, whose `str` is `"{status_code}: {detail}"`) into a 200
response with a soft-failure message. -/
def click_station (station_uuid : String) (choice : Nat := 0)
    {β : Type} (transport : Request → TransportOutcome β) :
    EndpointResult ClickResponse × List Request :=
  let fwd := make_radio_browser_request choice ("/json/url/" ++ station_uuid) none transport
  (match fwd.1 with
   | .ok _ => .ok { message := "Click registered successfully", error := none }
   | .error e =>
       .ok { message := "Click registration failed",
             error := some (toString e.status_code ++ ": " ++ e.detail) },
   fwd.2)

/-- `GET /api/radio/station/{station_uuid}` (server.py lines 182-189):
forwards `/json/stations/byuuid/{station_uuid}`; `if not stations` — an empty
list is falsy — raises `HTTPException(404, "Station not found")`; otherwise
the first element is reshaped and any further elements are ignored. -/
def get_station_details (station_uuid : String) (choice : Nat := 0)
    (transport : Request → TransportOutcome (List StationJson) :=
      fun _ => .failure "") :
    EndpointResult RadioStation × List Request :=
  let fwd := make_radio_browser_request choice
    ("/json/stations/byuuid/" ++ station_uuid) none transport
  (match fwd.1 with
   | .error e => .httpError e
   | .ok [] => .httpError { status_code := 404, detail := "Station not found" }
   | .ok (s :: _) =>
       match RadioStation.ofJson s with
       | some r => .ok r
       | none => .httpError { status_code := 500, detail := "Internal Server Error" },
   fwd.2)

/-- A `status_checks` document as stored by `create_status_check` (server.py
lines 196-201): the dict of a fully populated `StatusCheck` model (Mongo's
added `_id` field is ignored by pydantic when reading back).  The timestamp
is modelled as an integer epoch value. -/
structure StatusCheck where
  id : String
  client_name : String
  timestamp : Int
deriving DecidableEq, Repr

/-- `StatusCheckCreate` (server.py lines 82-83). -/
structure StatusCheckCreate where
  client_name : String

/-- `POST /api/status` (server.py lines 196-201): builds a `StatusCheck` from
the input plus the generated defaults (`uuid4` and `utcnow`, passed in
explicitly here), inserts its dict into `db.status_checks`, and returns it. -/
def create_status_check (input : StatusCheckCreate) (fresh_id : String)
    (now : Int) (db : List StatusCheck) : StatusCheck × List StatusCheck :=
  let status_obj : StatusCheck :=
    { id := fresh_id, client_name := input.client_name, timestamp := now }
  (status_obj, db ++ [status_obj])

/-- Motor's `cursor.to_list(length)`: retrieves at most `length` documents
from the cursor (`db.status_checks.find()` iterates all stored documents in
insertion order). -/
def find_to_list {α : Type} (docs : List α) (length : Nat) : List α :=
  docs.take length

/-- `GET /api/status` (server.py lines 203-206):
`await db.status_checks.find().to_list(1000)` then reshape each document. -/
def get_status_checks (db : List StatusCheck) : List StatusCheck :=
  (find_to_list db 1000).map
    (fun d => { id := d.id, client_name := d.client_name, timestamp := d.timestamp })

/-! ## Sample data and transports used by witnesses and counterexamples -/

/-- A minimal upstream station object carrying only the required fields. -/
def station_json_a : StationJson :=
  { stationuuid := some "uuid-a", name := some "Station A",
    url := some "http://a.example/stream" }

/-- A second minimal upstream station object. -/
def station_json_b : StationJson :=
  { stationuuid := some "uuid-b", name := some "Station B",
    url := some "http://b.example/stream" }

/-- The `RadioStation` record obtained by reshaping `station_json_a`. -/
def parsed_station_a : RadioStation :=
  { stationuuid := "uuid-a", name := "Station A", url := "http://a.example/stream",
    url_resolved := none, homepage := none, favicon := none, tags := none,
    country := none, countrycode := none, state := none, language := none,
    languagecodes := none, votes := 0, lastchangetime := none, codec := none,
    bitrate := 0, hls := 0, lastcheckok := 1, lastchecktime := none,
    lastcheckoktime := none, lastlocalchecktime := none, clicktimestamp := none,
    clickcount := 0, clicktrend := 0, ssl_error := 0, geo_lat := none,
    geo_long := none, has_extended_info := false }

/-- A transport whose upstream always answers 200 with an empty station
list. -/
def station_transport_empty : Request → TransportOutcome (List StationJson) :=
  fun _ => .response 200 []

/-- A transport whose upstream always answers 200 with an empty genre
list. -/
def genre_transport_empty : Request → TransportOutcome (List GenreJson) :=
  fun _ => .response 200 []

/-- A transport whose upstream always answers 200 with two station
objects. -/
def two_station_transport : Request → TransportOutcome (List StationJson) :=
  fun _ => .response 200 [station_json_a, station_json_b]

/-- A transport whose upstream always answers 200 with three country
objects: one with a positive station count, one with station count 0, and
one with the `stationcount` key absent. -/
def country_transport_sample : Request → TransportOutcome (List CountryJson) :=
  fun _ => .response 200
    [{ name := some "Germany", iso_3166_1 := some "DE", stationcount := some 5 },
     { name := some "Nowhere", iso_3166_1 := some "NW", stationcount := some 0 },
     { name := some "Missing", iso_3166_1 := some "MC", stationcount := none }]

/-! ## Helper lemmas -/

/-- A successful list comprehension preserves the list length. -/
theorem list_comp_length {α β : Type} (f : α → Option β) :
    ∀ (xs : List α) (ys : List β), list_comp f xs = some ys →
      ys.length = xs.length := by
  intro xs
  induction xs with
  | nil => intro ys h; simp [list_comp] at h; simp [← h]
  | cons x xs ih =>
      intro ys h
      simp only [list_comp] at h
      cases hx : f x with
      | none => rw [hx] at h; simp at h
      | some y =>
          rw [hx] at h
          cases hxs : list_comp f xs with
          | none => rw [hxs] at h; simp at h
          | some ys' =>
              rw [hxs] at h
              simp at h
              subst h
              simp [ih ys' hxs]

/-- Every element of a successful list comprehension's output is the image of
an element of the input. -/
theorem list_comp_mem {α β : Type} (f : α → Option β) :
    ∀ (xs : List α) (ys : List β), list_comp f xs = some ys →
      ∀ y ∈ ys, ∃ x ∈ xs, f x = some y := by
  intro xs
  induction xs with
  | nil =>
      intro ys h y hy
      simp [list_comp] at h
      subst h
      simp at hy
  | cons x xs ih =>
      intro ys h y hy
      simp only [list_comp] at h
      cases hx : f x with
      | none => rw [hx] at h; simp at h
      | some y' =>
          rw [hx] at h
          cases hxs : list_comp f xs with
          | none => rw [hxs] at h; simp at h
          | some ys' =>
              rw [hxs] at h
              simp at h
              subst h
              rcases List.mem_cons.mp hy with hy | hy
              · exact ⟨x, List.mem_cons_self x xs, by rw [hx, hy]⟩
              · rcases ih ys' hxs y hy with ⟨x', hx', hfx'⟩
                exact ⟨x', List.mem_cons_of_mem x hx', hfx'⟩

/-! ## Claim theorems -/

/-- C1: the claim says that on a non-200 upstream status the forwarder fails
with an error mirroring that status.  The code does not: the `HTTPException`
carrying the upstream status is raised inside the `try` block and caught by
the broad `except Exception` handler, which replaces it by a generic 500.
Evaluated here at upstream status 404: the forwarder fails with status 500
(and a doubly wrapped detail string), not 404. -/
theorem C1_upstream_status_not_mirrored :
    (make_radio_browser_request 0 "/json/stations/search" none
        (fun _ => TransportOutcome.response 404 (0 : Nat))).1 =
      Except.error { status_code := 500,
                     detail := "Radio API error: 404: Radio API error: 404" } := rfl

/-- C6: whenever the station-detail endpoint's upstream lookup returns an
empty list, the endpoint fails with a 404 "Station not found" error — for
every station id and mirror choice. -/
theorem C6_empty_lookup_gives_404 (station_uuid : String) (choice : Nat) :
    (get_station_details station_uuid choice
        (fun _ => TransportOutcome.response 200 ([] : List StationJson))).1 =
      .httpError { status_code := 404, detail := "Station not found" } := rfl

/-- C7: whenever the upstream GET times out, the forwarder fails with the
distinct timeout error mapped to HTTP 408 (not the generic 500) — for every
mirror choice, endpoint path, parameter set and body type. -/
theorem C7_timeout_maps_to_408 {β : Type} (choice : Nat) (endpoint : String)
    (params : Option Params) :
    (make_radio_browser_request choice endpoint params
        (fun _ => (TransportOutcome.timeout : TransportOutcome β))).1 =
      Except.error { status_code := 408, detail := "Radio API timeout" } := rfl

/-- C8: on every invocation — for every mirror choice, endpoint, parameter
set, and transport behaviour, including failing ones — the forwarder issues
exactly one outbound GET, against a host drawn from the fixed list of exactly
three mirror hostnames, carrying the caller's query parameters and the fixed
identifying `User-Agent` header; the singleton trace shows no retry against
another mirror after a failure. -/
theorem C8_single_request_no_retry {β : Type} (choice : Nat) (endpoint : String)
    (params : Option Params) (transport : Request → TransportOutcome β) :
    (make_radio_browser_request choice endpoint params transport).2 =
      [{ url := get_random_server choice ++ endpoint,
         params := params,
         headers := [("User-Agent", "GlobalRadioApp/1.0")] }] ∧
    RADIO_BROWSER_SERVERS.length = 3 ∧
    RADIO_BROWSER_SERVERS.getD (choice % RADIO_BROWSER_SERVERS.length) "" ∈
      RADIO_BROWSER_SERVERS ∧
    get_random_server choice =
      "https://" ++ RADIO_BROWSER_SERVERS.getD (choice % RADIO_BROWSER_SERVERS.length) "" := by
  refine ⟨rfl, rfl, ?_, rfl⟩
  have h3 : choice % RADIO_BROWSER_SERVERS.length < 3 :=
    Nat.mod_lt _ (by decide)
  generalize hg : choice % RADIO_BROWSER_SERVERS.length = m at h3 ⊢
  interval_cases m <;> decide

/-- C9: the status-listing endpoint returns at most 1000 records: its output
has length `min (size of the store) 1000`, and it is unchanged when all
documents beyond the first 1000 are dropped from the store — they are
silently omitted. -/
theorem C9_status_list_capped_at_1000 (db : List StatusCheck) :
    (get_status_checks db).length = min db.length 1000 ∧
    (get_status_checks db).length ≤ 1000 ∧
    get_status_checks db = get_status_checks (db.take 1000) := by
  refine ⟨?_, ?_, ?_⟩
  · simp [get_status_checks, find_to_list]
    omega
  · simp [get_status_checks, find_to_list]
  · unfold get_status_checks find_to_list
    rw [List.take_take]
    norm_num

/-- C10: whenever the station-detail endpoint's upstream lookup returns a
non-empty list, the endpoint returns the reshaped first element of that list;
the remaining elements (`rest`, universally quantified and absent from the
conclusion) are ignored. -/
theorem C10_first_element_returned (station_uuid : String) (choice : Nat)
    (s : StationJson) (rest : List StationJson) (r : RadioStation)
    (h : RadioStation.ofJson s = some r) :
    (get_station_details station_uuid choice
        (fun _ => TransportOutcome.response 200 (s :: rest))).1 = .ok r := by
  have hch : (get_station_details station_uuid choice
      (fun _ => TransportOutcome.response 200 (s :: rest))).1 =
      match RadioStation.ofJson s with
      | some r' => .ok r'
      | none => .httpError { status_code := 500, detail := "Internal Server Error" } := rfl
  rw [hch, h]

/-- Witness for C10: apply it to a two-element upstream list; the result is
the reshape of the first element only. -/
theorem C10_first_element_returned_witness :
    (get_station_details "uuid-a" 0
        (fun _ => TransportOutcome.response 200 [station_json_a, station_json_b])).1 =
      .ok parsed_station_a :=
  C10_first_element_returned "uuid-a" 0 station_json_a [station_json_b]
    parsed_station_a rfl

/-- C2: for every station id, mirror choice and transport behaviour, the
click-registration endpoint answers HTTP 200; when the forwarder call
succeeds it carries the success message, and when the forwarder fails with
any error it carries the soft-failure message (with `str(e)` of the caught
exception) instead of propagating the error. -/
theorem C2_click_registration_always_200 {β : Type} (station_uuid : String)
    (choice : Nat) (transport : Request → TransportOutcome β) :
    (click_station station_uuid choice transport).1.status_code = 200 ∧
    (click_station station_uuid choice transport).1 =
      (match (make_radio_browser_request choice ("/json/url/" ++ station_uuid)
          none transport).1 with
       | .ok _ => .ok { message := "Click registered successfully", error := none }
       | .error e =>
           .ok { message := "Click registration failed",
                 error := some (toString e.status_code ++ ": " ++ e.detail) }) := by
  have hsplit : (click_station station_uuid choice transport).1 =
      (match (make_radio_browser_request choice ("/json/url/" ++ station_uuid)
          none transport).1 with
       | .ok _ => .ok { message := "Click registered successfully", error := none }
       | .error e =>
           .ok { message := "Click registration failed",
                 error := some (toString e.status_code ++ ": " ++ e.detail) }) := rfl
  refine ⟨?_, hsplit⟩
  rw [hsplit]
  rcases (make_radio_browser_request choice ("/json/url/" ++ station_uuid)
      none transport).1 with e | b <;> rfl

/-- C3: search, popular and genres reject a `limit` outside `[1, 100]`
(search also an `offset < 0`) with a validation error and an empty request
trace — no upstream call is made, for every transport; for in-bounds values
each endpoint issues exactly one upstream request. -/
theorem C3_limit_offset_validation (name country tag language : Option String)
    (limit offset : Int) (choice : Nat)
    (t1 t2 : Request → TransportOutcome (List StationJson))
    (t3 : Request → TransportOutcome (List GenreJson)) :
    ((limit < 1 ∨ 100 < limit ∨ offset < 0) →
        search_stations name country tag language limit offset choice t1 =
          (.validationError, [])) ∧
    ((limit < 1 ∨ 100 < limit) →
        get_popular_stations limit choice t2 = (.validationError, []) ∧
        get_genres limit choice t3 = (.validationError, [])) ∧
    ((1 ≤ limit ∧ limit ≤ 100 ∧ 0 ≤ offset) →
        (search_stations name country tag language limit offset choice t1).2.length = 1 ∧
        (get_popular_stations limit choice t2).2.length = 1 ∧
        (get_genres limit choice t3).2.length = 1) := by
  refine ⟨?_, ?_, ?_⟩
  · intro h
    unfold search_stations
    rw [if_pos h]
  · intro h
    constructor
    · unfold get_popular_stations
      rw [if_pos h]
    · unfold get_genres
      rw [if_pos h]
  · rintro ⟨h1, h2, h3⟩
    have hc1 : ¬(limit < 1 ∨ 100 < limit ∨ offset < 0) := by omega
    have hc2 : ¬(limit < 1 ∨ 100 < limit) := by omega
    refine ⟨?_, ?_, ?_⟩
    · unfold search_stations
      rw [if_neg hc1]
      rfl
    · unfold get_popular_stations
      rw [if_neg hc2]
      rfl
    · unfold get_genres
      rw [if_neg hc2]
      rfl

/-- Witness for C3: at `limit = 0` all three endpoints answer with a
validation error and no upstream request; at the default `limit = 50`,
`offset = 0` each issues exactly one upstream request. -/
theorem C3_limit_offset_validation_witness :
    (search_stations none none none none 0 0 0 station_transport_empty =
        (.validationError, []) ∧
      get_popular_stations 0 0 station_transport_empty = (.validationError, []) ∧
      get_genres 0 0 genre_transport_empty = (.validationError, [])) ∧
    ((search_stations none none none none 50 0 0 station_transport_empty).2.length = 1 ∧
      (get_popular_stations 50 0 station_transport_empty).2.length = 1 ∧
      (get_genres 50 0 genre_transport_empty).2.length = 1) := by
  have h0 := C3_limit_offset_validation none none none none 0 0 0
    station_transport_empty station_transport_empty genre_transport_empty
  have h50 := C3_limit_offset_validation none none none none 50 0 0
    station_transport_empty station_transport_empty genre_transport_empty
  exact ⟨⟨h0.1 (by norm_num), h0.2.1 (by norm_num)⟩,
         h50.2.2 ⟨by norm_num, by norm_num, by norm_num⟩⟩

/-- Characterization of a search with in-bounds parameters whose upstream
answers 200 with a station list. -/
theorem search_stations_response_ok (name country tag language : Option String)
    (limit offset : Int) (choice : Nat) (stations : List StationJson)
    (hc : ¬(limit < 1 ∨ 100 < limit ∨ offset < 0)) :
    (search_stations name country tag language limit offset choice
        (fun _ => TransportOutcome.response 200 stations)).1 =
      (match list_comp RadioStation.ofJson stations with
       | some l => .ok l
       | none => .httpError { status_code := 500, detail := "Internal Server Error" }) := by
  unfold search_stations
  rw [if_neg hc]
  rfl

/-- C4 counterexample: with the valid limit 1 and an upstream JSON response
containing two station objects, the search endpoint returns a list of length
2 > 1 — the claim "length no greater than limit for every upstream JSON
response" fails on the code, which never truncates. -/
theorem C4_counterexample_limit_not_enforced :
    ¬ ((result_length (search_stations none none none none 1 0 0
        two_station_transport).1 : Int) ≤ 1) := by
  have h : result_length (search_stations none none none none 1 0 0
      two_station_transport).1 = 2 := rfl
  rw [h]
  decide

/-- C4 (amended): for all valid `limit`/`offset` within the documented bounds
and every upstream JSON response that itself contains at most `limit` station
objects, the list returned by the search endpoint has length no greater than
`limit` (the endpoint returns one record per upstream element and adds no
truncation of its own). -/
theorem C4_search_length_bounded_by_upstream (name country tag language : Option String)
    (limit offset : Int) (choice : Nat) (stations : List StationJson)
    (hlo : 1 ≤ limit) (hhi : limit ≤ 100) (hoff : 0 ≤ offset)
    (hlen : (stations.length : Int) ≤ limit) :
    ((result_length (search_stations name country tag language limit offset choice
        (fun _ => TransportOutcome.response 200 stations)).1 : Int) ≤ limit) := by
  have hc : ¬(limit < 1 ∨ 100 < limit ∨ offset < 0) := by omega
  have hch := search_stations_response_ok name country tag language limit offset
    choice stations hc
  cases hcomp : list_comp RadioStation.ofJson stations with
  | none =>
      rw [hch, hcomp]
      show ((0 : Nat) : Int) ≤ limit
      omega
  | some l =>
      rw [hch, hcomp]
      show ((l.length : Nat) : Int) ≤ limit
      rw [list_comp_length RadioStation.ofJson stations l hcomp]
      exact hlen

/-- Witness for C4 (amended): limit 1, a one-element upstream response; the
returned list has length at most 1. -/
theorem C4_search_length_bounded_by_upstream_witness :
    ((result_length (search_stations none none none none 1 0 0
        (fun _ => TransportOutcome.response 200 [station_json_a])).1 : Int) ≤ 1) :=
  C4_search_length_bounded_by_upstream none none none none 1 0 0 [station_json_a]
    (by norm_num) (by norm_num) (by norm_num) (by simp)

/-- C5: for every upstream countries response that yields a returned list,
every entry of that list has station count strictly greater than 0 — entries
with `stationcount ≤ 0` or with the field absent are filtered out before the
reshape. -/
theorem C5_countries_station_count_positive (choice : Nat)
    (transport : Request → TransportOutcome (List CountryJson))
    (l : List Country)
    (h : (get_countries choice transport).1 = .ok l) :
    ∀ c ∈ l, 0 < c.stationcount := by
  intro c hc
  simp only [get_countries] at h
  rcases hM : (make_radio_browser_request choice "/json/countries" none transport).1
    with e | countries
  · rw [hM] at h
    simp at h
  · rw [hM] at h
    dsimp only at h
    cases hcomp : list_comp Country.ofJson
        (countries.filter (fun cj => 0 < cj.stationcount.getD 0)) with
    | none =>
        rw [hcomp] at h
        simp at h
    | some l' =>
        rw [hcomp] at h
        simp only [EndpointResult.ok.injEq] at h
        subst h
        obtain ⟨cj, hcj, hof⟩ := list_comp_mem Country.ofJson _ _ hcomp c hc
        obtain ⟨hcjmem, hp⟩ := List.mem_filter.mp hcj
        have hpos : 0 < cj.stationcount.getD 0 := of_decide_eq_true hp
        obtain ⟨nm, iso, sc⟩ := cj
        cases nm with
        | none => simp [Country.ofJson] at hof
        | some nmv =>
          cases iso with
          | none => simp [Country.ofJson] at hof
          | some isov =>
            cases sc with
            | none => simp at hpos
            | some k =>
                simp only [Option.getD_some] at hpos
                simp only [Country.ofJson, Option.some.injEq] at hof
                rw [← hof]
                exact hpos

/-- Witness for C5: a sample upstream response with counts 5, 0, and absent;
the theorem applies to the resulting singleton list, whose entry has a
positive station count. -/
theorem C5_countries_station_count_positive_witness :
    0 < (Country.stationcount
        { name := "Germany", iso_3166_1 := "DE", stationcount := 5 }) :=
  C5_countries_station_count_positive 0 country_transport_sample
    [{ name := "Germany", iso_3166_1 := "DE", stationcount := 5 }] rfl
    { name := "Germany", iso_3166_1 := "DE", stationcount := 5 }
    (List.mem_singleton_self _)

/-! ## Sanity checks on concrete inputs -/

example :
    (make_radio_browser_request 0 "/json/tags" none
        (fun _ => TransportOutcome.response 200 (5 : Nat))).1 = .ok 5 := rfl

example :
    (make_radio_browser_request 1 "/json/tags" none
        (fun _ => TransportOutcome.response 404 (5 : Nat))).1 =
      .error { status_code := 500,
               detail := "Radio API error: 404: Radio API error: 404" } := rfl

example :
    (make_radio_browser_request 2 "/json/tags" none
        (fun _ => (TransportOutcome.timeout : TransportOutcome Nat))).1 =
      .error { status_code := 408, detail := "Radio API timeout" } := rfl

example : RadioStation.ofJson station_json_a = some parsed_station_a := rfl

example :
    (get_countries 0 country_transport_sample).1 =
      .ok [{ name := "Germany", iso_3166_1 := "DE", stationcount := 5 }] := rfl

example :
    (click_station "abc" 2 (fun _ => (TransportOutcome.timeout : TransportOutcome Nat))).1 =
      .ok { message := "Click registration failed",
            error := some "408: Radio API timeout" } := rfl
